import Mathlib

/-
Verification development for the request-handling core of lava-frappe-sdk.

The definitions below are shallow embeddings of the Python sources:
  * endpoints/api_endpoint.py   (ApiEndpoint: impersonation, version dispatch,
    execution boundary, parameter validation, response envelope)
  * endpoints/utils/translation.py  (generic object-tree walker and the two
    visitors used for translation-key extraction and in-place substitution)

External collaborators (the frappe framework: session store, ORM lookups,
the Error Code registry, the translation store, Template substitution) are
modelled as explicit parameters.  Python dictionaries are modelled as
association lists, Python falsiness is modelled per value kind, and machine
side effects (logging, tracing) are dropped or recorded as booleans where a
claim mentions them.
-/

/-! ## Python string primitives -/

/-- Python str.rstrip() with no argument: drop trailing whitespace.
(Lean Char.isWhitespace covers space, tab, CR, LF; the rarely used
vertical-tab and form-feed characters are not modelled.) -/
def rstrip (s : String) : String :=
  String.mk (List.reverse (List.dropWhile Char.isWhitespace s.data.reverse))

/-- Python str.isdigit(): nonempty and every character a digit
(restricted to ASCII digits). -/
def pyIsDigit (s : String) : Bool :=
  !s.data.isEmpty && s.data.all Char.isDigit

/-- Python dict.get(k): lookup in an association list. -/
def pyGet (m : List (String × α)) (k : String) : Option α :=
  List.lookup k m

/-! ## Response envelope (ApiEndpoint.respond_with_code, lines 349-406) -/

/-- The uniform response envelope returned by every endpoint. -/
structure Envelope where
  message : String
  data : Option String
  errorCode : String
  code : Int
  developer_message : String
deriving DecidableEq, Repr

/-- The external Error Code registry:
frappe.get_value("Error Code", name, [message, http_code]). -/
def ErrRegistry := String → Option (String × Int)

/-- Modelled from the spec: the translation collaborator used inside
respond_with_code.  api_endpoint.py calls translate.translate(s, language)
and then Template(...).substitute(sub_dict); the module providing the name
translate is not under src/, so the composite string-to-string mapping
(for the resolved request language and sub_dict) is taken as a parameter. -/
def TrFun := String → String

/-- ApiEndpoint.respond_with_code.  The request language resolution always
produces a truthy language (falling back to the literal en), so the
translation branch is always taken, exactly as in the source. -/
def respond_with_code (registry : ErrRegistry) (tr : TrFun)
    (message : String) (data : Option String) (code : Int) (error_code : String)
    (exception : Option String) (developer_message : String) : Envelope :=
  -- developer_message = developer_message or message
  let developer_message := if developer_message = "" then message else developer_message
  -- if exception and not error_code: error_code = exception.__class__.__name__
  let error_code :=
    if error_code = "" then
      match exception with
      | some cls => cls
      | none => ""
    else error_code
  -- if error_code and not message: consult the Error Code registry
  let mc : String × Int :=
    if error_code ≠ "" ∧ message = "" then
      match registry error_code with
      | none => ("Server Error (" ++ error_code ++ ")", code)
      | some e => (e.1, if code = 0 then e.2 else code)
    else (message, code)
  -- language is always truthy; translate the error code (or the message)
  let message :=
    if error_code ≠ "" then
      let t := tr error_code
      if t = error_code then mc.1 else t
    else tr mc.1
  { message := message, data := data, errorCode := error_code, code := mc.2,
    developer_message := developer_message }

/-! ## Execution boundary (ApiEndpoint.execute, lines 408-441) -/

/-- The observable outcome of running the action inside execute: either a
normal envelope, or an exception of one of the kinds the boundary
distinguishes.  Each failure carries the exception class name (Python
__class__.__name__); POSException also carries str(e).  POSException is a
repository class whose defining file (utils/input_model_base.py) is not
under src/; per the spec taxonomy it is modelled as a distinct kind. -/
inductive ExecOutcome where
  | ok (env : Envelope)
  | validationError (cls : String)
  | notFound (cls : String)
  | badRequest (cls : String)
  | permissionError (cls : String)
  | osPermissionError (cls : String)
  | posException (cls : String) (msg : String)
  | otherError (cls : String)

/-- Result of the boundary: the envelope, plus whether frappe.db.rollback()
was invoked. -/
structure ExecResult where
  envelope : Envelope
  rolledBack : Bool

/-- ApiEndpoint.execute: catch clauses in source order. -/
def execute (registry : ErrRegistry) (tr : TrFun) (action : ExecOutcome) : ExecResult :=
  match action with
  | .ok env => ⟨env, false⟩
  | .validationError cls =>
      ⟨respond_with_code registry tr "" none 417 "" (some cls) "", true⟩
  | .notFound cls =>
      ⟨respond_with_code registry tr "" none 404 "" (some cls) "", true⟩
  | .badRequest cls =>
      ⟨respond_with_code registry tr "" none 400 "" (some cls) "", true⟩
  | .permissionError cls =>
      ⟨respond_with_code registry tr "" none 403 "Forbidden" (some cls) "", true⟩
  | .osPermissionError cls =>
      ⟨respond_with_code registry tr "" none 403 "Forbidden" (some cls) "", true⟩
  | .posException cls msg =>
      ⟨respond_with_code registry tr "" none 417 "" (some cls) msg, true⟩
  | .otherError cls =>
      ⟨respond_with_code registry tr "" none 500 "" (some cls) "", true⟩

/-! ## Impersonation (ApiEndpoint.impersonate / get_impersonated_user_id /
run, lines 81-149) -/

/-- The request/session state impersonation reads and writes. -/
structure FrappeCtx where
  queryParams : List (String × String)
  jsonParams : List (String × String)
  users : List String
  sessionUser : String
  roles : List String

/-- ApiEndpoint.get_impersonated_user_id: user_id from the query string,
falling back to the JSON body when the query value is missing or falsy
(the empty string). -/
def get_impersonated_user_id (ctx : FrappeCtx) : Option String :=
  let q := pyGet ctx.queryParams "user_id"
  if q = none ∨ q = some "" then pyGet ctx.jsonParams "user_id" else q

/-- ApiEndpoint.impersonate.  Returns the success flag and the resulting
session state (frappe.session.user / frappe.set_user are modelled by the
sessionUser field). -/
def impersonate (ctx : FrappeCtx) : Bool × FrappeCtx :=
  match get_impersonated_user_id ctx with
  | none => (false, ctx)
  | some uid =>
    -- if not user_id or not frappe.db.exists(User, user_id): return False
    if uid = "" then (false, ctx)
    else if uid ∉ ctx.users then (false, ctx)
    -- users are allowed to impersonate themselves
    else if ctx.sessionUser = uid then (true, ctx)
    -- only the system manager can impersonate other users
    else if "System Manager" ∉ ctx.roles then (false, ctx)
    else (true, { ctx with sessionUser := uid })

/-- The impersonation gate at the top of ApiEndpoint.run (lines 147-149):
on failure run returns the 403 Forbidden envelope, otherwise it proceeds
(no envelope). -/
def runImpersonationGate (registry : ErrRegistry) (tr : TrFun) (ctx : FrappeCtx) :
    Option Envelope × FrappeCtx :=
  let r := impersonate ctx
  if r.1 then (none, r.2)
  else (some (respond_with_code registry tr "" none 403 "Forbidden" none ""), r.2)

/-! ## API version lookup (ApiEndpoint.run lines 151-164 and
try_get_api_version_from_query_and_body, lines 222-236) -/

/-- The parameter sources run consults, in the shapes the source reads them:
handler call kwargs, query string, JSON body, form body. -/
structure RequestSources where
  kwargs : List (String × String)
  query : List (String × String)
  jsonBody : List (String × String)
  formBody : List (String × String)

/-- ApiEndpoint.try_get_api_version_from_query_and_body: query string first;
then the JSON body, replaced by the form body only when the JSON body is
empty (falsy). -/
def try_get_api_version_from_query_and_body (r : RequestSources) : Option String :=
  match pyGet r.query "api_version" with
  | some v => some v
  | none =>
    let params := if r.jsonBody.isEmpty then r.formBody else r.jsonBody
    pyGet params "api_version"

/-- The version-selection prefix of ApiEndpoint.run: an api_version in the
handler call kwargs wins, otherwise query/body are consulted.  (kwargs
entries are modelled as strings; a kwargs entry bound to Python None is
modelled as absent, which run treats identically.) -/
def runRequestedApiVersion (r : RequestSources) : Option String :=
  match pyGet r.kwargs "api_version" with
  | some v => some v
  | none => try_get_api_version_from_query_and_body r

/-! ## Version resolution (ApiEndpoint.get_method_by_api_version,
lines 238-252) -/

/-- A version tag as attached by the api_version decorator: the source
compares tags with str(), accepting integer and string identifiers. -/
inductive PyVer where
  | intVer (n : Int)
  | strVer (s : String)
deriving DecidableEq, Repr

/-- Python str() of a version value. -/
def PyVer.pyStr : PyVer → String
  | .intVer n => toString n
  | .strVer s => s

/-- ApiEndpoint.get_method_by_api_version over the endpoint's method table
(pairs of declared version tag and method identifier, in enumeration
order).  Returns the chosen method and whether the multiple-match warning
was logged. -/
def get_method_by_api_version (methods : List (PyVer × Nat)) (version : PyVer) :
    Option Nat × Bool :=
  let ms := methods.filter (fun m => m.1.pyStr = version.pyStr)
  match ms with
  | [] => (none, false)
  | [m] => (some m.2, false)
  | m :: _ :: _ => (some m.2, true)

/-- The dispatch step of ApiEndpoint.run (lines 165-174): no matching method
yields the 400 InvalidVersion envelope, otherwise the resolved method. -/
def runVersionDispatch (registry : ErrRegistry) (tr : TrFun)
    (methods : List (PyVer × Nat)) (version : PyVer) : Sum Envelope Nat :=
  match (get_method_by_api_version methods version).1 with
  | none =>
      .inl (respond_with_code registry tr
        ("Invalid API Version \x27" ++ version.pyStr ++ "\x27") none 400
        "InvalidVersion" none "")
  | some m => .inr m

/-! ## Python values for parameter validation -/

/-- The parameter value kinds the validators distinguish: None, bool, int,
str.  (Python float values are not modelled; the float-typed literals in
the source are reached through their int or string forms.) -/
inductive PyVal where
  | vNone
  | vBool (b : Bool)
  | vInt (n : Int)
  | vStr (s : String)
deriving DecidableEq, Repr

/-- Python truthiness of a parameter value. -/
def pyTruthy : PyVal → Bool
  | .vNone => false
  | .vBool b => b
  | .vInt n => n != 0
  | .vStr s => s != ""

/-- Python dict.get(p) with the None default. -/
def pyGetVal (params : List (String × PyVal)) (p : String) : PyVal :=
  (List.lookup p params).getD .vNone

/-- Python membership v in [0x27 0 0x27, 0x27 0.0 0x27, 0, 0.0] under Python
equality: the two string literals match only equal strings; the numeric
literals match numeric zero, and False (bool is an int subtype, False == 0). -/
def inZeroLiterals : PyVal → Bool
  | .vStr s => s == "0" || s == "0.0"
  | .vInt n => n == 0
  | .vBool b => !b
  | .vNone => false

/-! ## validate_required_parameters_has_vales (lines 306-318) -/

/-- Python list interpolation of the missing-names list inside an f-string
(modelled with Lean toString of the list). -/
def valuesNotFoundMessage (missing : List String) : String :=
  "These arguments " ++ toString missing ++ " values can\x27t be empty"

/-- The loop body of validate_required_parameters_has_vales: none means the
loop returned early with success (a zero-like value was seen); some gives
the accumulated missing-value names. -/
def hasValesLoop (params : List (String × PyVal)) :
    List String → List String → Option (List String)
  | [], missing_values => some missing_values
  | p :: rest, missing_values =>
    let v := pyGetVal params p
    if inZeroLiterals v then none
    else if !pyTruthy v then hasValesLoop params rest (missing_values ++ [p])
    else hasValesLoop params rest missing_values

/-- ApiEndpoint.validate_required_parameters_has_vales. -/
def validate_required_parameters_has_vales (registry : ErrRegistry) (tr : TrFun)
    (params : List (String × PyVal)) (required_parameters : List String) :
    Bool × Option Envelope :=
  match hasValesLoop params required_parameters [] with
  | none => (true, none)
  | some missing_values =>
    if missing_values.isEmpty then (true, none)
    else (false, some (respond_with_code registry tr
      (valuesNotFoundMessage missing_values) none 400 "ValuesNotFound" none ""))

/-! ## validate_required_parameters (lines 262-304) -/

/-- p in params and params[p] is not None. -/
def presentNonNone (params : List (String × PyVal)) (p : String) : Bool :=
  match List.lookup p params with
  | some v => v != PyVal.vNone
  | none => false

/-- The inner check_tuple_parameters helper. -/
def check_tuple_parameters (params : List (String × PyVal)) (param_tuple : List String) : Bool :=
  param_tuple.any (presentNonNone params)

/-- ApiEndpoint.validate_required_parameters.  The source raises a bare
Exception when both lists are missing or empty; the raise is modelled with
Except.error carrying the message (source typo preserved). -/
def validate_required_parameters (registry : ErrRegistry) (tr : TrFun)
    (params : List (String × PyVal))
    (required_parameter_names : Option (List String))
    (alternative_parameters : Option (List (List String))) :
    Except String (Bool × Option Envelope) :=
  -- x if x else []: Python None and the empty list both normalize to []
  let alternative_parameters := alternative_parameters.getD []
  let required_parameter_names := required_parameter_names.getD []
  if alternative_parameters.isEmpty ∧ required_parameter_names.isEmpty then
    .error ("Must send one of theses lists alternative_parameters or " ++
      "required_parameters_name to validate_required_parameters.")
  else
    let missing_parameters :=
      required_parameter_names.filter (fun p => !presentNonNone params p)
    let missing_alt_parameters :=
      alternative_parameters.filter (fun t => !check_tuple_parameters params t)
    if !missing_alt_parameters.isEmpty || !missing_parameters.isEmpty then
      let message :=
        (if !missing_parameters.isEmpty then
          "Required parameters are missing: " ++
            String.intercalate ", " missing_parameters ++ ". "
        else "") ++
        (if !missing_alt_parameters.isEmpty then
          "Specify at least one of the following: " ++
            String.intercalate ", " (missing_alt_parameters.map (String.intercalate " | "))
        else "")
      .ok (false, some (respond_with_code registry tr message none 400
        "ArgumentNotFound" none ""))
    else .ok (true, none)

/-! ## validate_input_type (lines 320-335) and validate_positive_value
(lines 337-347) -/

/-- The type tokens a validate_input_type caller can pass. -/
inductive PyType where
  | tBool
  | tInt
  | tStr
deriving DecidableEq, Repr

/-- Python isinstance for the modelled kinds; bool is a subtype of int. -/
def pyIsInstance : PyVal → PyType → Bool
  | .vBool _, .tBool => true
  | .vBool _, .tInt => true
  | .vInt _, .tInt => true
  | .vStr _, .tStr => true
  | _, _ => false

/-- Digits of an ASCII numeral. -/
def digitsToNat (cs : List Char) : Nat :=
  cs.foldl (fun a c => a * 10 + (c.toNat - 48)) 0

/-- The Python float(str) builtin, modelled for plain decimal literals with
optional sign and surrounding whitespace; every other string fails (as the
builtin raises ValueError).  Scientific notation, inf and nan are outside
the modelled subset. -/
def pyFloatParse (s : String) : Option Rat :=
  let cs := ((s.data.dropWhile Char.isWhitespace).reverse.dropWhile
    Char.isWhitespace).reverse
  let signed : Int × List Char :=
    match cs with
    | '-' :: rest => (-1, rest)
    | '+' :: rest => (1, rest)
    | _ => (1, cs)
  let intPart := signed.2.takeWhile (fun c => c ≠ '.')
  match signed.2.dropWhile (fun c => c ≠ '.') with
  | [] =>
    if !intPart.isEmpty && intPart.all Char.isDigit then
      some (signed.1 * digitsToNat intPart)
    else none
  | _ :: frac =>
    if (intPart.isEmpty && frac.isEmpty) then none
    else if intPart.all Char.isDigit && frac.all Char.isDigit then
      some ((signed.1 : Rat) *
        ((digitsToNat intPart : Rat) + (digitsToNat frac : Rat) / ((10 : Rat) ^ frac.length)))
    else none

/-- Python float(v) for the modelled value kinds; None is not convertible
(and is unreachable behind the truthiness guard in the source). -/
def pyFloat : PyVal → Option Rat
  | .vInt n => some n
  | .vBool b => some (if b then 1 else 0)
  | .vStr s => pyFloatParse s
  | .vNone => none

/-- ApiEndpoint.validate_input_type accumulation over input_params.items().
A truthy value of a type outside input_type is collected; when str is among
the allowed types and check_digit is set, a str value must also parse as a
float (the parse failure is caught in the source, not raised). -/
def wrongTypeKeys (input_params : List (String × PyVal)) (input_type : List PyType)
    (check_digit : Bool) : List String :=
  input_params.foldl (fun acc kv =>
    if pyTruthy kv.2 then
      let acc := if !(input_type.any (pyIsInstance kv.2)) then acc ++ [kv.1] else acc
      match kv.2 with
      | .vStr s =>
        if input_type.contains PyType.tStr && check_digit then
          if (pyFloatParse s).isNone then acc ++ [kv.1] else acc
        else acc
      | _ => acc
    else acc) []

/-- ApiEndpoint.validate_input_type. -/
def validate_input_type (registry : ErrRegistry) (tr : TrFun)
    (input_params : List (String × PyVal)) (input_type : List PyType)
    (check_digit : Bool) : Bool × Option Envelope :=
  let wrong_type_values := wrongTypeKeys input_params input_type check_digit
  if wrong_type_values.isEmpty then (true, none)
  else (false, some (respond_with_code registry tr "" none 400 "BadRequest" none
    (toString wrong_type_values ++ " have wrong input type")))

/-- The loop of validate_positive_value: float(v) on a truthy unparseable
value propagates ValueError out of the helper (modelled with Except.error). -/
def positiveLoop : List (String × PyVal) → List String → Except String (List String)
  | [], negative_value => .ok negative_value
  | (k, v) :: rest, negative_value =>
    if pyTruthy v then
      match pyFloat v with
      | none => .error ("could not convert string to float: " ++ toString (repr v))
      | some q =>
        if q < 0 then positiveLoop rest (negative_value ++ [k])
        else positiveLoop rest negative_value
    else positiveLoop rest negative_value

/-- ApiEndpoint.validate_positive_value. -/
def validate_positive_value (registry : ErrRegistry) (tr : TrFun)
    (input_params : List (String × PyVal)) : Except String (Bool × Option Envelope) :=
  match positiveLoop input_params [] with
  | .error e => .error e
  | .ok negative_value =>
    if negative_value.isEmpty then .ok (true, none)
    else .ok (false, some (respond_with_code registry tr "" none 400 "BadRequest" none
      (toString negative_value ++ " value shouldn\x27t be negative")))

/-! ## The object-tree model (endpoints/utils/translation.py) -/

/-- The object hierarchy _visit supports: dictionaries, lists, string
primitives, and other leaves (numbers and the like), which the walker does
not visit. -/
inductive JTree where
  | str : String → JTree
  | num : Int → JTree
  | list : List JTree → JTree
  | dict : List (String × JTree) → JTree

/-- The _Visitor interface: visit_dict / visit_list decide recursion,
visit_str optionally returns a replacement; visitors may carry state
(the extraction visitor accumulates its key set there). -/
structure PyVisitor (σ : Type) where
  visitDict : Option String → List (String × JTree) → σ → Bool × σ
  visitList : Option String → List JTree → σ → Bool × σ
  visitStr : Option String → String → σ → Option String × σ

/-! The walker (_visit, lines 219-249).  dispatch passes the dictionary key
as filter key (list indices and the root pass None), visits strings on
their rstripped form, and writes the replacement back into the parent only
when it is truthy and differs from the original untrimmed value.  In the
source the tree is mutated in place; here the updated tree is returned
alongside the visitor state. -/

mutual
/-- The dispatch closure of _visit. -/
def pyDispatch (V : PyVisitor σ) (k : Option String) (v : JTree) (s : σ) : JTree × σ :=
  match v with
  | .dict d =>
    let r1 := V.visitDict k d s
    if r1.1 then
      let r2 := pyWalkDict V d r1.2
      (.dict r2.1, r2.2)
    else (.dict d, r1.2)
  | .list l =>
    let r1 := V.visitList k l s
    if r1.1 then
      let r2 := pyWalkList V l r1.2
      (.list r2.1, r2.2)
    else (.list l, r1.2)
  | .str v0 =>
    let r1 := V.visitStr k (rstrip v0) s
    match r1.1 with
    | some nv => (if nv ≠ "" ∧ nv ≠ v0 then .str nv else .str v0, r1.2)
    | none => (.str v0, r1.2)
  | .num n => (.num n, s)

/-- walk_dict: dispatch on every entry with its key. -/
def pyWalkDict (V : PyVisitor σ) (d : List (String × JTree)) (s : σ) :
    List (String × JTree) × σ :=
  match d with
  | [] => ([], s)
  | (key, v) :: rest =>
    let r1 := pyDispatch V (some key) v s
    let r2 := pyWalkDict V rest r1.2
    ((key, r1.1) :: r2.1, r2.2)

/-- walk_list: dispatch on every element; the integer index is not a string
key, so the filter key is None. -/
def pyWalkList (V : PyVisitor σ) (l : List JTree) (s : σ) : List JTree × σ :=
  match l with
  | [] => ([], s)
  | v :: rest =>
    let r1 := pyDispatch V none v s
    let r2 := pyWalkList V rest r1.2
    (r1.1 :: r2.1, r2.2)
end

/-- _visit(obj, visitor): the walk starts at the root with key None.
(In the source a root-level string replacement would hit a None parent;
_translate only passes dictionary or list roots to _visit.) -/
def pyVisit (V : PyVisitor σ) (obj : JTree) (s : σ) : JTree × σ :=
  pyDispatch V none obj s

/-! ## Filter resolution shared by both visitors (lines 145-159, 189-202) -/

/-- _should_exclude as resolved in both visitors: a nonempty
inclusions set overrides exclusions entirely. -/
def shouldExclude (exclusions inclusions : List String) (key : String) : Bool :=
  if inclusions.isEmpty then exclusions.contains key
  else !(inclusions.contains key)

/-- The per-node guard: key and _should_exclude(key).  A missing key
(None) and the empty-string key (falsy) are never excluded. -/
def excludedKey (exclusions inclusions : List String) : Option String → Bool
  | none => false
  | some key => key ≠ "" && shouldExclude exclusions inclusions key

/-! ## _KeyExtractionVisitor (lines 142-183) -/

/-- set.add on the accumulated key set (membership is what downstream
consumes; the set is modelled as a duplicate-free list). -/
def insertKey (keys : List String) (x : String) : List String :=
  if x ∈ keys then keys else x :: keys

/-- _KeyExtractionVisitor: recursion stops at excluded keys; visit_str adds
the (already rstripped) string unless its key is excluded or the string is
purely numeric, and always returns None. -/
def keyExtractionVisitor (exclusions inclusions : List String) :
    PyVisitor (List String) where
  visitDict k _ s := (!excludedKey exclusions inclusions k, s)
  visitList k _ s := (!excludedKey exclusions inclusions k, s)
  visitStr k x s :=
    if excludedKey exclusions inclusions k then (none, s)
    else if pyIsDigit x then (none, s)
    else (none, insertKey s x)

/-- _extract_translation_keys (lines 79-95): None filters default to empty
lists (the id/name default lives in _translate, not here). -/
def extract_translation_keys (obj : JTree)
    (exclusions inclusions : Option (List String)) : List String :=
  (pyVisit (keyExtractionVisitor (exclusions.getD []) (inclusions.getD [])) obj []).2

/-! ## _TranslationVisitor (lines 186-216) -/

/-- _TranslationVisitor: same exclusion logic; visit_str returns
translations.get(x) or x (the original string when the lookup is missing
or falsy), and None for excluded keys. -/
def translationVisitor (translations : List (String × String))
    (exclusions inclusions : List String) : PyVisitor Unit where
  visitDict k _ s := (!excludedKey exclusions inclusions k, s)
  visitList k _ s := (!excludedKey exclusions inclusions k, s)
  visitStr k x s :=
    (if excludedKey exclusions inclusions k then none
     else some (match List.lookup x translations with
       | some t => if t ≠ "" then t else x
       | none => x), s)

/-- The substitution walk run by _translate (line 42-43): _visit with a
_TranslationVisitor over the already-fetched translation table. -/
def translationWalk (translations : List (String × String))
    (exclusions inclusions : List String) (obj : JTree) : JTree :=
  (pyVisit (translationVisitor translations exclusions inclusions) obj ()).1

/-- The filter-default resolution at the top of _translate (lines 21-22):
the default exclusion set applies only when exclusions is None and
inclusions is falsy (None or empty). -/
def translateEffectiveFilters (exclusions inclusions : Option (List String)) :
    Option (List String) × Option (List String) :=
  if exclusions = none ∧ (inclusions.getD []).isEmpty then
    (some ["id", "name"], inclusions)
  else (exclusions, inclusions)

/-! ## Derived observations used in the statements -/

mutual
/-- All string leaves of a tree, in order. -/
def leafStrings : JTree → List String
  | .str s => [s]
  | .num _ => []
  | .list l => leafStringsList l
  | .dict d => leafStringsDict d

def leafStringsList : List JTree → List String
  | [] => []
  | t :: ts => leafStrings t ++ leafStringsList ts

def leafStringsDict : List (String × JTree) → List String
  | [] => []
  | (_, t) :: ts => leafStrings t ++ leafStringsDict ts
end

mutual
/-- The key set the extraction pass is claimed to produce, written from the
claim: walking the tree and stopping at excluded keys, collect the trimmed
leaf strings whose key is not excluded and which are not purely numeric. -/
def specExtractedKeys (ex inc : List String) : Option String → JTree → List String
  | k, .str v =>
    if excludedKey ex inc k then []
    else if pyIsDigit (rstrip v) then []
    else [rstrip v]
  | _, .num _ => []
  | k, .list l => if excludedKey ex inc k then [] else specExtractedKeysList ex inc l
  | k, .dict d => if excludedKey ex inc k then [] else specExtractedKeysDict ex inc d

def specExtractedKeysList (ex inc : List String) : List JTree → List String
  | [] => []
  | t :: ts => specExtractedKeys ex inc none t ++ specExtractedKeysList ex inc ts

def specExtractedKeysDict (ex inc : List String) : List (String × JTree) → List String
  | [] => []
  | (key, t) :: ts =>
    specExtractedKeys ex inc (some key) t ++ specExtractedKeysDict ex inc ts
end

/-! ## Concrete collaborators for closed statements -/

/-- An Error Code registry with no entries. -/
def regEmpty : ErrRegistry := fun _ => none

/-- A translation collaborator that translates nothing. -/
def trId : TrFun := fun s => s

/-- Whether a modelled call raised (propagated a Python exception). -/
def raisesError : Except String α → Bool
  | .error _ => true
  | .ok _ => false

/-! ## Field lemmas for respond_with_code -/

theorem respond_ec_fields (registry : ErrRegistry) (tr : TrFun) (msg : String)
    (data : Option String) (c : Int) (ec : String) (exc : Option String) (dm : String)
    (hec : ec ≠ "") (hc : c ≠ 0) :
    (respond_with_code registry tr msg data c ec exc dm).code = c ∧
    (respond_with_code registry tr msg data c ec exc dm).errorCode = ec ∧
    (respond_with_code registry tr msg data c ec exc dm).developer_message =
      (if dm = "" then msg else dm) := by
  simp only [respond_with_code, if_neg hec]
  refine ⟨?_, trivial, trivial⟩
  by_cases hmsg : (ec ≠ "" ∧ msg = "")
  · simp only [if_pos hmsg]
    cases registry ec with
    | none => rfl
    | some e => simp [if_neg hc]
  · simp only [if_neg hmsg]

theorem respond_exc_fields (registry : ErrRegistry) (tr : TrFun)
    (data : Option String) (c : Int) (cls dm : String) (hc : c ≠ 0) :
    (respond_with_code registry tr "" data c "" (some cls) dm).code = c ∧
    (respond_with_code registry tr "" data c "" (some cls) dm).errorCode = cls ∧
    (respond_with_code registry tr "" data c "" (some cls) dm).developer_message = dm := by
  simp only [respond_with_code]
  norm_num
  constructor
  · by_cases hcls : cls = ""
    · simp [hcls]
    · simp only [if_neg hcls]
      cases registry cls with
      | none => rfl
      | some e => simp [if_neg hc]
  · intro h
    exact h.symm

/-! ## C2: the execution boundary taxonomy -/

/-- C2: execute returns an envelope for every action outcome (no exception
escapes), maps domain validation failures to 417 with the exception kind
name as errorCode, resource-not-found to 404, malformed requests to 400,
framework and OS-level permission denials to 403 with errorCode Forbidden,
POSException to 417 with the stringified exception as developer message,
any other exception to 500, and rolls back the pending persistence
transaction in every failure branch. -/
theorem execute_exception_taxonomy (registry : ErrRegistry) (tr : TrFun)
    (env : Envelope) (cls msg : String) :
    execute registry tr (.ok env) = ⟨env, false⟩ ∧
    ((execute registry tr (.validationError cls)).envelope.code = 417 ∧
      (execute registry tr (.validationError cls)).envelope.errorCode = cls ∧
      (execute registry tr (.validationError cls)).rolledBack = true) ∧
    ((execute registry tr (.notFound cls)).envelope.code = 404 ∧
      (execute registry tr (.notFound cls)).envelope.errorCode = cls ∧
      (execute registry tr (.notFound cls)).rolledBack = true) ∧
    ((execute registry tr (.badRequest cls)).envelope.code = 400 ∧
      (execute registry tr (.badRequest cls)).envelope.errorCode = cls ∧
      (execute registry tr (.badRequest cls)).rolledBack = true) ∧
    ((execute registry tr (.permissionError cls)).envelope.code = 403 ∧
      (execute registry tr (.permissionError cls)).envelope.errorCode = "Forbidden" ∧
      (execute registry tr (.permissionError cls)).rolledBack = true) ∧
    ((execute registry tr (.osPermissionError cls)).envelope.code = 403 ∧
      (execute registry tr (.osPermissionError cls)).envelope.errorCode = "Forbidden" ∧
      (execute registry tr (.osPermissionError cls)).rolledBack = true) ∧
    ((execute registry tr (.posException cls msg)).envelope.code = 417 ∧
      (execute registry tr (.posException cls msg)).envelope.errorCode = cls ∧
      (execute registry tr (.posException cls msg)).envelope.developer_message = msg ∧
      (execute registry tr (.posException cls msg)).rolledBack = true) ∧
    ((execute registry tr (.otherError cls)).envelope.code = 500 ∧
      (execute registry tr (.otherError cls)).envelope.errorCode = cls ∧
      (execute registry tr (.otherError cls)).rolledBack = true) := by
  refine ⟨rfl, ?_, ?_, ?_, ?_, ?_, ?_, ?_⟩
  · have h := respond_exc_fields registry tr none 417 cls "" (by decide)
    exact ⟨h.1, h.2.1, rfl⟩
  · have h := respond_exc_fields registry tr none 404 cls "" (by decide)
    exact ⟨h.1, h.2.1, rfl⟩
  · have h := respond_exc_fields registry tr none 400 cls "" (by decide)
    exact ⟨h.1, h.2.1, rfl⟩
  · have h := respond_ec_fields registry tr "" none 403 "Forbidden" (some cls) ""
      (by decide) (by decide)
    exact ⟨h.1, h.2.1, rfl⟩
  · have h := respond_ec_fields registry tr "" none 403 "Forbidden" (some cls) ""
      (by decide) (by decide)
    exact ⟨h.1, h.2.1, rfl⟩
  · have h := respond_exc_fields registry tr none 417 cls msg (by decide)
    exact ⟨h.1, h.2.1, h.2.2, rfl⟩
  · have h := respond_exc_fields registry tr none 500 cls "" (by decide)
    exact ⟨h.1, h.2.1, rfl⟩

/-! ## C1: the impersonation gate -/

/-- A request context with no user_id anywhere: the claim asserts the gate
is a no-op success here, the code fails with 403. -/
def ctxNoUid : FrappeCtx :=
  ⟨[], [], ["alice"], "alice", ["System Manager"]⟩

/-- C1 counterexample: with no user_id in the query string or body, run
does not proceed; it returns the 403 Forbidden envelope. -/
theorem impersonation_gate_cex :
    (runImpersonationGate regEmpty trId ctxNoUid).1 =
      some (respond_with_code regEmpty trId "" none 403 "Forbidden" none "") ∧
    (runImpersonationGate regEmpty trId ctxNoUid).1 ≠ none :=
  ⟨rfl, by decide⟩

/-- C1 amended: when no user_id (or an empty one) is present the gate fails
with the 403 Forbidden envelope (not a no-op success); a present user_id
that does not exist fails with 403 Forbidden; a caller already equal to
the target succeeds with no role check (any roles list); a caller who is
not the target and lacks the System Manager role fails with 403 Forbidden;
and every gate failure carries code 403 and errorCode Forbidden. -/
theorem impersonation_gate_amended (registry : ErrRegistry) (tr : TrFun)
    (ctx : FrappeCtx) :
    ((get_impersonated_user_id ctx = none ∨ get_impersonated_user_id ctx = some "") →
      (runImpersonationGate registry tr ctx).1 =
        some (respond_with_code registry tr "" none 403 "Forbidden" none "") ∧
      (runImpersonationGate registry tr ctx).2 = ctx) ∧
    (∀ uid, get_impersonated_user_id ctx = some uid → uid ∉ ctx.users →
      (runImpersonationGate registry tr ctx).1 =
        some (respond_with_code registry tr "" none 403 "Forbidden" none "")) ∧
    (∀ uid, get_impersonated_user_id ctx = some uid → uid ≠ "" → uid ∈ ctx.users →
      ctx.sessionUser = uid →
      (runImpersonationGate registry tr ctx).1 = none ∧
      (runImpersonationGate registry tr ctx).2 = ctx) ∧
    (∀ uid, get_impersonated_user_id ctx = some uid → ctx.sessionUser ≠ uid →
      "System Manager" ∉ ctx.roles →
      (runImpersonationGate registry tr ctx).1 =
        some (respond_with_code registry tr "" none 403 "Forbidden" none "")) ∧
    (∀ env, (runImpersonationGate registry tr ctx).1 = some env →
      env.code = 403 ∧ env.errorCode = "Forbidden") := by
  have hf := respond_ec_fields registry tr "" none 403 "Forbidden" none ""
    (by decide) (by decide)
  refine ⟨?_, ?_, ?_, ?_, ?_⟩
  · rintro (h | h) <;>
      simp [runImpersonationGate, impersonate, h]
  · intro uid h hmem
    rcases eq_or_ne uid "" with rfl | hne
    · simp [runImpersonationGate, impersonate, h]
    · simp [runImpersonationGate, impersonate, h, hne, hmem]
  · intro uid h hne hmem hsess
    simp [runImpersonationGate, impersonate, h, hne, hmem, hsess]
  · intro uid h hsess hrole
    rcases eq_or_ne uid "" with rfl | hne
    · simp [runImpersonationGate, impersonate, h]
    · by_cases hmem : uid ∈ ctx.users
      · simp [runImpersonationGate, impersonate, h, hne, hmem, hsess, hrole,
          Ne.symm hsess]
      · simp [runImpersonationGate, impersonate, h, hne, hmem]
  · intro env henv
    have : env = respond_with_code registry tr "" none 403 "Forbidden" none "" := by
      by_cases hi : (impersonate ctx).1
      · simp [runImpersonationGate, hi] at henv
      · simp [runImpersonationGate, hi] at henv
        exact henv.symm
    rw [this]
    exact ⟨hf.1, hf.2.1⟩

/-- C1 witness: a caller impersonating themselves with an empty roles list
passes the gate with no failure envelope (no role check). -/
theorem impersonation_gate_amended_witness :
    (runImpersonationGate regEmpty trId
      ⟨[("user_id", "alice")], [], ["alice"], "alice", []⟩).1 = none :=
  ((impersonation_gate_amended regEmpty trId
      ⟨[("user_id", "alice")], [], ["alice"], "alice", []⟩).2.2.1
    "alice" (by decide) (by decide) (by decide) rfl).1

/-! ## C4: api_version source priority -/

/-- C4 counterexample: kwargs, query string and JSON body carry no
api_version, the JSON body is nonempty, and the form body carries one; the
claim says the form body version is used, but the form body is never
consulted and no version is requested. -/
theorem api_version_priority_cex :
    runRequestedApiVersion ⟨[], [], [("foo", "1")], [("api_version", "7")]⟩ = none ∧
    runRequestedApiVersion ⟨[], [], [("foo", "1")], [("api_version", "7")]⟩ ≠
      some "7" :=
  ⟨rfl, by decide⟩

/-- C4 amended: run takes api_version from the handler call kwargs first,
else the query string, else the JSON body; the form body is consulted only
when the JSON body is empty, in which case the form body version is used. -/
theorem api_version_priority_amended (r : RequestSources) :
    (∀ v, pyGet r.kwargs "api_version" = some v → runRequestedApiVersion r = some v) ∧
    (pyGet r.kwargs "api_version" = none →
      ∀ v, pyGet r.query "api_version" = some v → runRequestedApiVersion r = some v) ∧
    (pyGet r.kwargs "api_version" = none → pyGet r.query "api_version" = none →
      r.jsonBody ≠ [] →
      runRequestedApiVersion r = pyGet r.jsonBody "api_version") ∧
    (pyGet r.kwargs "api_version" = none → pyGet r.query "api_version" = none →
      r.jsonBody = [] →
      runRequestedApiVersion r = pyGet r.formBody "api_version") := by
  refine ⟨?_, ?_, ?_, ?_⟩
  · intro v h
    simp [runRequestedApiVersion, h]
  · intro hk v h
    simp [runRequestedApiVersion, try_get_api_version_from_query_and_body, hk, h]
  · intro hk hq hj
    simp [runRequestedApiVersion, try_get_api_version_from_query_and_body, hk, hq,
      List.isEmpty_iff, hj]
  · intro hk hq hj
    simp [runRequestedApiVersion, try_get_api_version_from_query_and_body, hk, hq, hj]

/-- C4 witness: with api_version only in the form body and an empty JSON
body, the form body version is used. -/
theorem api_version_priority_amended_witness :
    runRequestedApiVersion ⟨[], [], [], [("api_version", "7")]⟩ = some "7" :=
  ((api_version_priority_amended ⟨[], [], [], [("api_version", "7")]⟩).2.2.2
    rfl rfl rfl).trans (by decide)

/-! ## C5: version resolution -/

/-- C5: version tags and the requested version are compared in string form
(an integer tag 2 matches the requested string 2); zero matches yield
not-found, which run maps to the 400 InvalidVersion envelope; with at
least one match the first match in enumeration order is returned, and the
multiple-match warning is logged exactly when more than one matches. -/
theorem version_resolution_spec (registry : ErrRegistry) (tr : TrFun)
    (methods : List (PyVer × Nat)) (v w : PyVer) :
    (v.pyStr = w.pyStr →
      get_method_by_api_version methods v = get_method_by_api_version methods w) ∧
    ((∀ p ∈ methods, ¬p.1.pyStr = v.pyStr) →
      get_method_by_api_version methods v = (none, false) ∧
      ∃ env, runVersionDispatch registry tr methods v = .inl env ∧
        env.code = 400 ∧ env.errorCode = "InvalidVersion") ∧
    (∀ m ms, methods.filter (fun p => p.1.pyStr = v.pyStr) = m :: ms →
      (get_method_by_api_version methods v).1 = some m.2 ∧
      ((get_method_by_api_version methods v).2 = true ↔ ms ≠ [])) := by
  refine ⟨?_, ?_, ?_⟩
  · intro h
    simp [get_method_by_api_version, h]
  · intro h
    have hfil : methods.filter (fun p => p.1.pyStr = v.pyStr) = [] :=
      List.filter_eq_nil_iff.mpr (by intro a ha; simpa using h a ha)
    have hg : get_method_by_api_version methods v = (none, false) := by
      simp [get_method_by_api_version, hfil]
    refine ⟨hg, ?_⟩
    have hd : runVersionDispatch registry tr methods v =
        .inl (respond_with_code registry tr
          ("Invalid API Version \x27" ++ v.pyStr ++ "\x27") none 400
          "InvalidVersion" none "") := by
      simp [runVersionDispatch, hg]
    refine ⟨_, hd, ?_, ?_⟩
    · exact (respond_ec_fields registry tr
        ("Invalid API Version \x27" ++ v.pyStr ++ "\x27") none 400
        "InvalidVersion" none "" (by decide) (by decide)).1
    · exact (respond_ec_fields registry tr
        ("Invalid API Version \x27" ++ v.pyStr ++ "\x27") none 400
        "InvalidVersion" none "" (by decide) (by decide)).2.1
  · intro m ms hfil
    cases ms with
    | nil => simp [get_method_by_api_version, hfil]
    | cons m2 ms2 => simp [get_method_by_api_version, hfil]

/-- C5 witness: requested string 2 resolves against an integer tag 2, to
the single declared method, with no warning. -/
theorem version_resolution_spec_witness :
    get_method_by_api_version [(PyVer.intVer 2, 0)] (PyVer.strVer "2") =
      get_method_by_api_version [(PyVer.intVer 2, 0)] (PyVer.intVer 2) ∧
    get_method_by_api_version [(PyVer.intVer 2, 0)] (PyVer.strVer "2") =
      (some 0, false) :=
  ⟨(version_resolution_spec regEmpty trId [(PyVer.intVer 2, 0)]
      (PyVer.strVer "2") (PyVer.intVer 2)).1 (by decide), by decide⟩

/-! ## C7: validate_required_parameters_has_vales -/

theorem hasValesLoop_zero (params : List (String × PyVal)) :
    ∀ (required acc : List String),
      (∃ p ∈ required, inZeroLiterals (pyGetVal params p) = true) →
      hasValesLoop params required acc = none := by
  intro required
  induction required with
  | nil => intro acc h; simp at h
  | cons p rest ih =>
    intro acc h
    by_cases hz : inZeroLiterals (pyGetVal params p)
    · simp [hasValesLoop, hz]
    · have hrest : ∃ q ∈ rest, inZeroLiterals (pyGetVal params q) = true := by
        rcases h with ⟨q, hq, hqz⟩
        rcases List.mem_cons.mp hq with rfl | hq2
        · exact absurd hqz hz
        · exact ⟨q, hq2, hqz⟩
      by_cases ht : pyTruthy (pyGetVal params p)
      · simp [hasValesLoop, hz, ht, ih _ hrest]
      · simp [hasValesLoop, hz, ht, ih _ hrest]

theorem hasValesLoop_noZero (params : List (String × PyVal)) :
    ∀ (required acc : List String),
      (∀ p ∈ required, ¬inZeroLiterals (pyGetVal params p) = true) →
      hasValesLoop params required acc =
        some (acc ++ required.filter (fun p => !pyTruthy (pyGetVal params p))) := by
  intro required
  induction required with
  | nil => intro acc h; simp [hasValesLoop]
  | cons p rest ih =>
    intro acc h
    have hz : ¬inZeroLiterals (pyGetVal params p) = true := h p (by simp)
    have hr : ∀ q ∈ rest, ¬inZeroLiterals (pyGetVal params q) = true :=
      fun q hq => h q (List.mem_cons_of_mem _ hq)
    by_cases ht : pyTruthy (pyGetVal params p)
    · simp [hasValesLoop, hz, ht, ih _ hr, List.filter_cons]
    · simp [hasValesLoop, hz, ht, ih _ hr, List.filter_cons]

/-- C7: the required-values check succeeds as soon as any listed parameter
has a zero-like value (the strings 0 and 0.0, numeric zero, and hence
False), even if other required parameters are missing or empty; with no
zero-like value present it succeeds when every listed value is truthy, and
otherwise returns the 400 ValuesNotFound envelope listing every name whose
value is missing or falsy. -/
theorem has_vales_spec (registry : ErrRegistry) (tr : TrFun)
    (params : List (String × PyVal)) (required : List String) :
    ((∃ p ∈ required, inZeroLiterals (pyGetVal params p) = true) →
      validate_required_parameters_has_vales registry tr params required =
        (true, none)) ∧
    ((∀ p ∈ required, ¬inZeroLiterals (pyGetVal params p) = true) →
      (required.filter (fun p => !pyTruthy (pyGetVal params p)) = [] →
        validate_required_parameters_has_vales registry tr params required =
          (true, none)) ∧
      (∀ m ms, required.filter (fun p => !pyTruthy (pyGetVal params p)) = m :: ms →
        validate_required_parameters_has_vales registry tr params required =
          (false, some (respond_with_code registry tr
            (valuesNotFoundMessage (m :: ms)) none 400 "ValuesNotFound" none "")))) := by
  constructor
  · intro h
    simp [validate_required_parameters_has_vales,
      hasValesLoop_zero params required [] h]
  · intro h
    have hl := hasValesLoop_noZero params required [] h
    constructor
    · intro hfil
      simp [validate_required_parameters_has_vales, hl, hfil]
    · intro m ms hfil
      simp [validate_required_parameters_has_vales, hl, hfil]

/-- C7 witness: requireNonEmptyValues with a bound to 0 and b bound to None
succeeds, exactly the example in the claim. -/
theorem has_vales_spec_witness :
    validate_required_parameters_has_vales regEmpty trId
      [("a", PyVal.vInt 0), ("b", PyVal.vNone)] ["a", "b"] = (true, none) :=
  (has_vales_spec regEmpty trId [("a", PyVal.vInt 0), ("b", PyVal.vNone)]
    ["a", "b"]).1 ⟨"a", by decide, by decide⟩

/-! ## C8: validator totality -/

/-- C8 counterexample: validate_required_parameters raises (rather than
returning a 400 envelope) when both the required-names list and the
alternative-groups list are empty, and validate_positive_value raises
ValueError on a truthy non-numeric string. -/
theorem validators_never_throw_cex :
    raisesError (validate_required_parameters regEmpty trId [] none none) = true ∧
    raisesError (validate_positive_value regEmpty trId
      [("x", PyVal.vStr "abc")]) = true :=
  ⟨rfl, rfl⟩

theorem positiveLoop_ok (input_params : List (String × PyVal)) :
    (∀ kv ∈ input_params, pyTruthy kv.2 = true → (pyFloat kv.2).isSome = true) →
    ∀ acc, ∃ l, positiveLoop input_params acc = .ok l := by
  induction input_params with
  | nil => intro _ acc; exact ⟨acc, rfl⟩
  | cons kv rest ih =>
    obtain ⟨k, v⟩ := kv
    intro h acc
    have hrest : ∀ kv ∈ rest, pyTruthy kv.2 = true → (pyFloat kv.2).isSome = true :=
      fun x hx => h x (List.mem_cons_of_mem _ hx)
    by_cases ht : pyTruthy v
    · have hsome := h (k, v) (by simp) ht
      rcases hq : pyFloat v with _ | q
      · rw [hq] at hsome; simp at hsome
      · by_cases hneg : q < 0
        · simpa [positiveLoop, ht, hq, hneg] using ih hrest (acc ++ [k])
        · simpa [positiveLoop, ht, hq, hneg] using ih hrest acc
    · simpa [positiveLoop, ht] using ih hrest acc

/-- C8 amended: validate_required_parameters_has_vales and
validate_input_type always return (true, none) or (false, envelope);
validate_required_parameters does so whenever the two lists are not both
missing or empty, but raises when they are; validate_positive_value does
so whenever every truthy value converts to a float, but propagates
ValueError on a truthy non-numeric string. -/
theorem validators_shapes_amended (registry : ErrRegistry) (tr : TrFun)
    (params input_params : List (String × PyVal)) (required : List String)
    (input_type : List PyType) (check_digit : Bool)
    (req : Option (List String)) (alts : Option (List (List String))) :
    (validate_required_parameters_has_vales registry tr params required =
        (true, none) ∨
      ∃ env, validate_required_parameters_has_vales registry tr params required =
        (false, some env)) ∧
    (validate_input_type registry tr input_params input_type check_digit =
        (true, none) ∨
      ∃ env, validate_input_type registry tr input_params input_type check_digit =
        (false, some env)) ∧
    (¬((alts.getD []).isEmpty = true ∧ (req.getD []).isEmpty = true) →
      validate_required_parameters registry tr params req alts = .ok (true, none) ∨
      ∃ env, validate_required_parameters registry tr params req alts =
        .ok (false, some env)) ∧
    ((∀ kv ∈ input_params, pyTruthy kv.2 = true → (pyFloat kv.2).isSome = true) →
      validate_positive_value registry tr input_params = .ok (true, none) ∨
      ∃ env, validate_positive_value registry tr input_params =
        .ok (false, some env)) := by
  refine ⟨?_, ?_, ?_, ?_⟩
  · rcases hloop : hasValesLoop params required [] with _ | mv
    · left
      simp [validate_required_parameters_has_vales, hloop]
    · by_cases hmv : mv.isEmpty
      · left
        simp [validate_required_parameters_has_vales, hloop, hmv]
      · right
        exact ⟨respond_with_code registry tr (valuesNotFoundMessage mv) none 400
            "ValuesNotFound" none "",
          by simp [validate_required_parameters_has_vales, hloop, hmv]⟩
  · by_cases hw : (wrongTypeKeys input_params input_type check_digit).isEmpty
    · left
      simp [validate_input_type, hw]
    · right
      exact ⟨respond_with_code registry tr "" none 400 "BadRequest" none
          (toString (wrongTypeKeys input_params input_type check_digit) ++
            " have wrong input type"),
        by simp [validate_input_type, hw]⟩
  · intro h
    simp only [validate_required_parameters, if_neg h]
    split
    · right
      exact ⟨_, rfl⟩
    · left
      rfl
  · intro h
    rcases positiveLoop_ok input_params h [] with ⟨l, hl⟩
    by_cases hle : l.isEmpty
    · left
      simp [validate_positive_value, hl, hle]
    · right
      exact ⟨respond_with_code registry tr "" none 400 "BadRequest" none
          (toString l ++ " value shouldn\x27t be negative"),
        by simp [validate_positive_value, hl, hle]⟩

/-- C8 witness: with a nonempty required list the helper returns a result
pair instead of raising. -/
theorem validators_shapes_amended_witness :
    validate_required_parameters regEmpty trId [] (some ["a"]) none =
      .ok (true, none) ∨
    ∃ env, validate_required_parameters regEmpty trId [] (some ["a"]) none =
      .ok (false, some env) :=
  (validators_shapes_amended regEmpty trId [] [] [] [] false
    (some ["a"]) none).2.2.1 (by decide)

/-! ## C6: inclusions take precedence over exclusions -/

/-- C6: with a nonempty inclusions set, exclusion during both key
extraction and substitution is decided solely by inclusions membership (a
key is excluded iff it is not in inclusions) and the exclusions set is
ignored entirely, even when the same key appears in it; the id/name
default is applied only by the _translate entry point when exclusions is
unset and inclusions is unset or empty, never by the generic extraction
walker. -/
theorem inclusions_precedence (tr : List (String × String))
    (ex ex1 ex2 inc : List String) (key : String) (obj : JTree)
    (inclusionsO : Option (List String)) :
    (inc ≠ [] →
      shouldExclude ex1 inc key = shouldExclude ex2 inc key ∧
      (shouldExclude ex inc key = true ↔ key ∉ inc) ∧
      keyExtractionVisitor ex1 inc = keyExtractionVisitor ex2 inc ∧
      translationVisitor tr ex1 inc = translationVisitor tr ex2 inc) ∧
    translateEffectiveFilters none none = (some ["id", "name"], none) ∧
    (∀ incl, translateEffectiveFilters none (some incl) =
      (if incl.isEmpty then some ["id", "name"] else none, some incl)) ∧
    (∀ excl, translateEffectiveFilters (some excl) inclusionsO =
      (some excl, inclusionsO)) ∧
    extract_translation_keys obj none none =
      (pyVisit (keyExtractionVisitor [] []) obj []).2 := by
  refine ⟨?_, by simp [translateEffectiveFilters], ?_, ?_, rfl⟩
  · intro hinc
    have hne : ¬inc.isEmpty := by
      simpa [List.isEmpty_iff] using hinc
    have hse : ∀ e1 e2 k, shouldExclude e1 inc k = shouldExclude e2 inc k := by
      intro e1 e2 k
      simp [shouldExclude, hne]
    have hek : ∀ e1 e2 (k : Option String),
        excludedKey e1 inc k = excludedKey e2 inc k := by
      intro e1 e2 k
      cases k with
      | none => rfl
      | some key => simp [excludedKey, hse e1 e2 key]
    refine ⟨hse ex1 ex2 key, ?_, ?_, ?_⟩
    · simp [shouldExclude, hne]
    · simp only [keyExtractionVisitor]
      congr 1 <;> funext k x s <;> simp [hek ex1 ex2 k]
    · simp only [translationVisitor]
      congr 1 <;> funext k x s <;> simp [hek ex1 ex2 k]
  · intro incl
    by_cases hi : incl.isEmpty
    · simp [translateEffectiveFilters, hi]
    · simp [translateEffectiveFilters, hi]
  · intro excl
    simp [translateEffectiveFilters]

/-- C6 witness: the key a, listed in both filters, is not excluded because
inclusions win. -/
theorem inclusions_precedence_witness :
    shouldExclude ["a"] ["a"] "a" = shouldExclude [] ["a"] "a" ∧
    (shouldExclude ["a"] ["a"] "a" = true ↔ "a" ∉ (["a"] : List String)) := by
  have h := (inclusions_precedence [] ["a"] ["a"] [] ["a"] "a"
    (JTree.num 0) none).1 (by decide)
  exact ⟨h.1, h.2.1⟩

/-! ## Walker lemmas -/

theorem keyExtractionVisitor_visitDict (ex inc : List String) (k : Option String)
    (d : List (String × JTree)) (s : List String) :
    (keyExtractionVisitor ex inc).visitDict k d s = (!excludedKey ex inc k, s) := rfl

theorem keyExtractionVisitor_visitList (ex inc : List String) (k : Option String)
    (l : List JTree) (s : List String) :
    (keyExtractionVisitor ex inc).visitList k l s = (!excludedKey ex inc k, s) := rfl

theorem keyExtractionVisitor_visitStr (ex inc : List String) (k : Option String)
    (x : String) (s : List String) :
    (keyExtractionVisitor ex inc).visitStr k x s =
      if excludedKey ex inc k then (none, s)
      else if pyIsDigit x then (none, s)
      else (none, insertKey s x) := rfl

theorem translationVisitor_visitDict (tr : List (String × String))
    (ex inc : List String) (k : Option String) (d : List (String × JTree)) (s : Unit) :
    (translationVisitor tr ex inc).visitDict k d s = (!excludedKey ex inc k, s) := rfl

theorem translationVisitor_visitList (tr : List (String × String))
    (ex inc : List String) (k : Option String) (l : List JTree) (s : Unit) :
    (translationVisitor tr ex inc).visitList k l s = (!excludedKey ex inc k, s) := rfl

theorem translationVisitor_visitStr (tr : List (String × String))
    (ex inc : List String) (k : Option String) (x : String) (s : Unit) :
    (translationVisitor tr ex inc).visitStr k x s =
      (if excludedKey ex inc k then none
       else some (match List.lookup x tr with
         | some t => if t ≠ "" then t else x
         | none => x), s) := rfl

theorem mem_insertKey (s : List String) (y x : String) :
    x ∈ insertKey s y ↔ x ∈ s ∨ x = y := by
  unfold insertKey
  split
  · constructor
    · exact fun hx => Or.inl hx
    · rintro (hx | rfl)
      · exact hx
      · assumption
  · simp [List.mem_cons, or_comm]

mutual
theorem extractFrameDispatch (ex inc : List String) (k : Option String) (t : JTree)
    (s : List String) :
    (pyDispatch (keyExtractionVisitor ex inc) k t s).1 = t := by
  match t with
  | .str v0 =>
    simp only [pyDispatch, keyExtractionVisitor_visitStr]
    split_ifs <;> rfl
  | .num n => rfl
  | .list l =>
    simp only [pyDispatch, keyExtractionVisitor_visitList]
    split_ifs <;> simp [extractFrameList ex inc l]
  | .dict d =>
    simp only [pyDispatch, keyExtractionVisitor_visitDict]
    split_ifs <;> simp [extractFrameDict ex inc d]

theorem extractFrameList (ex inc : List String) (l : List JTree) :
    ∀ s, (pyWalkList (keyExtractionVisitor ex inc) l s).1 = l := by
  intro s
  match l with
  | [] => rfl
  | v :: rest =>
    simp only [pyWalkList]
    simp [extractFrameDispatch ex inc none v s, extractFrameList ex inc rest]

theorem extractFrameDict (ex inc : List String) (d : List (String × JTree)) :
    ∀ s, (pyWalkDict (keyExtractionVisitor ex inc) d s).1 = d := by
  intro s
  match d with
  | [] => rfl
  | (key, v) :: rest =>
    simp only [pyWalkDict]
    simp [extractFrameDispatch ex inc (some key) v s, extractFrameDict ex inc rest]
end

mutual
theorem extractKeysDispatch (ex inc : List String) (k : Option String) (t : JTree)
    (s : List String) (x : String) :
    x ∈ (pyDispatch (keyExtractionVisitor ex inc) k t s).2 ↔
      x ∈ s ∨ x ∈ specExtractedKeys ex inc k t := by
  match t with
  | .str v0 =>
    simp only [pyDispatch, keyExtractionVisitor_visitStr]
    by_cases hexk : excludedKey ex inc k = true
    · simp [hexk, specExtractedKeys]
    · by_cases hd : pyIsDigit (rstrip v0) = true
      · simp [hexk, hd, specExtractedKeys]
      · simp [hexk, hd, specExtractedKeys, mem_insertKey]
  | .num n => simp [pyDispatch, specExtractedKeys]
  | .list l =>
    simp only [pyDispatch, keyExtractionVisitor_visitList]
    by_cases hexk : excludedKey ex inc k = true
    · simp [hexk, specExtractedKeys]
    · simp [hexk, specExtractedKeys, extractKeysList ex inc l s x]
  | .dict d =>
    simp only [pyDispatch, keyExtractionVisitor_visitDict]
    by_cases hexk : excludedKey ex inc k = true
    · simp [hexk, specExtractedKeys]
    · simp [hexk, specExtractedKeys, extractKeysDict ex inc d s x]

theorem extractKeysDict (ex inc : List String) (d : List (String × JTree))
    (s : List String) (x : String) :
    x ∈ (pyWalkDict (keyExtractionVisitor ex inc) d s).2 ↔
      x ∈ s ∨ x ∈ specExtractedKeysDict ex inc d := by
  match d with
  | [] => simp [pyWalkDict, specExtractedKeysDict]
  | (key, v) :: rest =>
    simp only [pyWalkDict, specExtractedKeysDict]
    rw [extractKeysDict ex inc rest
        ((pyDispatch (keyExtractionVisitor ex inc) (some key) v s).2) x,
      extractKeysDispatch ex inc (some key) v s x]
    simp [or_assoc]

theorem extractKeysList (ex inc : List String) (l : List JTree)
    (s : List String) (x : String) :
    x ∈ (pyWalkList (keyExtractionVisitor ex inc) l s).2 ↔
      x ∈ s ∨ x ∈ specExtractedKeysList ex inc l := by
  match l with
  | [] => simp [pyWalkList, specExtractedKeysList]
  | v :: rest =>
    simp only [pyWalkList, specExtractedKeysList]
    rw [extractKeysList ex inc rest
        ((pyDispatch (keyExtractionVisitor ex inc) none v s).2) x,
      extractKeysDispatch ex inc none v s x]
    simp [or_assoc]
end

/-- The string-leaf behavior of the substitution dispatch, in closed form. -/
theorem transDispatch_str (tr : List (String × String)) (ex inc : List String)
    (k : Option String) (v0 : String) (s : Unit) :
    (pyDispatch (translationVisitor tr ex inc) k (.str v0) s).1 =
      if excludedKey ex inc k then .str v0
      else
        let nv0 := match List.lookup (rstrip v0) tr with
          | some t => if t ≠ "" then t else rstrip v0
          | none => rstrip v0
        if nv0 ≠ "" ∧ nv0 ≠ v0 then .str nv0 else .str v0 := by
  by_cases hexk : excludedKey ex inc k <;>
    simp [pyDispatch, translationVisitor_visitStr, hexk]

mutual
theorem transLeafDispatch (tr : List (String × String)) (ex inc : List String)
    (k : Option String) (t : JTree) (s : Unit) (x : String) :
    x ∈ leafStrings (pyDispatch (translationVisitor tr ex inc) k t s).1 →
    x ∈ leafStrings t ∨ x ≠ "" := by
  match t with
  | .str v0 =>
    rw [transDispatch_str]
    by_cases hexk : excludedKey ex inc k = true
    · simp only [hexk, if_true]
      exact fun hx => Or.inl hx
    · simp only [hexk, if_false, Bool.false_eq_true]
      split_ifs with hcond
      · intro hx
        simp only [leafStrings, List.mem_singleton] at hx
        right
        rw [hx]
        exact hcond.1
      · exact fun hx => Or.inl hx
  | .num n =>
    simp only [pyDispatch]
    exact fun hx => Or.inl hx
  | .list l =>
    simp only [pyDispatch, translationVisitor_visitList]
    split_ifs with hexk
    · simp only [leafStrings]
      exact transLeafList tr ex inc l s x
    · exact fun hx => Or.inl hx
  | .dict d =>
    simp only [pyDispatch, translationVisitor_visitDict]
    split_ifs with hexk
    · simp only [leafStrings]
      exact transLeafDict tr ex inc d s x
    · exact fun hx => Or.inl hx

theorem transLeafDict (tr : List (String × String)) (ex inc : List String)
    (d : List (String × JTree)) (s : Unit) (x : String) :
    x ∈ leafStringsDict (pyWalkDict (translationVisitor tr ex inc) d s).1 →
    x ∈ leafStringsDict d ∨ x ≠ "" := by
  match d with
  | [] =>
    simp only [pyWalkDict]
    exact fun hx => Or.inl hx
  | (key, v) :: rest =>
    simp only [pyWalkDict, leafStringsDict, List.mem_append]
    intro hx
    rcases hx with hx | hx
    · rcases transLeafDispatch tr ex inc (some key) v s x hx with h | h
      · exact Or.inl (Or.inl h)
      · exact Or.inr h
    · rcases transLeafDict tr ex inc rest _ x hx with h | h
      · exact Or.inl (Or.inr h)
      · exact Or.inr h

theorem transLeafList (tr : List (String × String)) (ex inc : List String)
    (l : List JTree) (s : Unit) (x : String) :
    x ∈ leafStringsList (pyWalkList (translationVisitor tr ex inc) l s).1 →
    x ∈ leafStringsList l ∨ x ≠ "" := by
  match l with
  | [] =>
    simp only [pyWalkList]
    exact fun hx => Or.inl hx
  | v :: rest =>
    simp only [pyWalkList, leafStringsList, List.mem_append]
    intro hx
    rcases hx with hx | hx
    · rcases transLeafDispatch tr ex inc none v s x hx with h | h
      · exact Or.inl (Or.inl h)
      · exact Or.inr h
    · rcases transLeafList tr ex inc rest _ x hx with h | h
      · exact Or.inl (Or.inr h)
      · exact Or.inr h
end

/-! ## C9: the extraction pass is pure -/

/-- C9: the key-extraction visitor always returns None from its string
visit, the walk it drives leaves the tree unchanged (no node is replaced),
and the extracted set holds exactly the trimmed leaf strings the walk
reaches whose key is not excluded and which do not consist only of digit
characters (specExtractedKeys, written from the claim). -/
theorem extraction_frame_and_keys (ex inc : List String) (k : Option String)
    (x0 : String) (t : JTree) (s : List String)
    (exclusionsO inclusionsO : Option (List String)) (obj : JTree) (x : String) :
    ((keyExtractionVisitor ex inc).visitStr k x0 s).1 = none ∧
    (pyVisit (keyExtractionVisitor ex inc) t s).1 = t ∧
    (x ∈ extract_translation_keys obj exclusionsO inclusionsO ↔
      x ∈ specExtractedKeys (exclusionsO.getD []) (inclusionsO.getD []) none obj) := by
  refine ⟨?_, extractFrameDispatch ex inc none t s, ?_⟩
  · rw [keyExtractionVisitor_visitStr]
    split_ifs <;> rfl
  · unfold extract_translation_keys pyVisit
    rw [extractKeysDispatch]
    simp

/-! ## C3: untranslated leaves are not always left in place -/

/-- C3 counterexample: the key k is not excluded and the empty translation
table has no entry for a, yet the leaf a-with-trailing-space does not stay
in place: the walk replaces it by its trimmed form. -/
theorem untranslated_leaf_cex :
    translationWalk [] [] [] (JTree.dict [("k", JTree.str "a ")]) =
      JTree.dict [("k", JTree.str "a")] ∧
    translationWalk [] [] [] (JTree.dict [("k", JTree.str "a ")]) ≠
      JTree.dict [("k", JTree.str "a ")] := by
  constructor
  · rfl
  · intro h
    rw [show translationWalk [] [] [] (JTree.dict [("k", JTree.str "a ")]) =
      JTree.dict [("k", JTree.str "a")] from rfl] at h
    simp at h

/-- C3 amended: a replacement is written only when the visitor returns a
truthy value different from the original untrimmed string; a leaf whose
trimmed form has no entry (or an empty one) in the table becomes its
trimmed form - equal to the original exactly when the original carries no
trailing whitespace (or trims to the empty string). -/
theorem untranslated_leaf_amended (tr : List (String × String))
    (ex inc : List String) (k : Option String) (v : String) (s : Unit) :
    ((pyDispatch (translationVisitor tr ex inc) k (.str v) s).1 = .str v ∨
      ∃ nv, nv ≠ "" ∧ nv ≠ v ∧
        ((translationVisitor tr ex inc).visitStr k (rstrip v) s).1 = some nv ∧
        (pyDispatch (translationVisitor tr ex inc) k (.str v) s).1 = .str nv) ∧
    ((List.lookup (rstrip v) tr = none ∨ List.lookup (rstrip v) tr = some "") →
      (pyDispatch (translationVisitor tr ex inc) k (.str v) s).1 =
        .str (if rstrip v = "" ∨ excludedKey ex inc k = true then v
              else rstrip v)) := by
  constructor
  · rw [transDispatch_str]
    by_cases hexk : excludedKey ex inc k = true
    · simp [hexk]
    · simp only [hexk, if_false, Bool.false_eq_true]
      split_ifs with hcond
      · right
        refine ⟨_, hcond.1, hcond.2, ?_, rfl⟩
        simp [translationVisitor_visitStr, hexk]
      · left
        rfl
  · intro hl
    rw [transDispatch_str]
    have hnv : (match List.lookup (rstrip v) tr with
        | some t => if t ≠ "" then t else rstrip v
        | none => rstrip v) = rstrip v := by
      rcases hl with h | h <;> simp [h]
    by_cases hexk : excludedKey ex inc k = true
    · simp [hexk]
    · simp only [hexk, if_false, Bool.false_eq_true, hnv]
      by_cases hemp : rstrip v = ""
      · simp [hemp]
      · by_cases hsame : rstrip v = v
        · simp [hemp, hsame]
        · simp [hemp, hsame, hexk]

/-- C3 witness: an unexcluded leaf with trailing whitespace and no table
entry is rewritten to its trimmed form. -/
theorem untranslated_leaf_amended_witness :
    (pyDispatch (translationVisitor [] [] []) none (.str "a ") ()).1 =
      JTree.str "a" := by
  have h := (untranslated_leaf_amended [] [] [] none "a " ()).2 (Or.inl rfl)
  simpa using h

/-! ## C10: the walk never writes the empty string -/

/-- C10 counterexample: a table translating b to the empty string does not
leave the leaf b-with-trailing-space in place: the visitor falls back to
the trimmed original, which replaces the untrimmed leaf. -/
theorem empty_translation_cex :
    translationWalk [("b", "")] [] [] (JTree.list [JTree.str "b "]) =
      JTree.list [JTree.str "b"] ∧
    translationWalk [("b", "")] [] [] (JTree.list [JTree.str "b "]) ≠
      JTree.list [JTree.str "b "] := by
  constructor
  · rfl
  · intro h
    rw [show translationWalk [("b", "")] [] [] (JTree.list [JTree.str "b "]) =
      JTree.list [JTree.str "b"] from rfl] at h
    simp at h

/-- C10 amended: the walk never writes the empty string into the tree (a
tree without empty-string leaves keeps that property), and on an
empty-string translation the visitor returns the trimmed original string,
which leaves the leaf unchanged unless it carried trailing whitespace, in
which case the leaf becomes its trimmed form. -/
theorem empty_translation_amended (tr : List (String × String))
    (ex inc : List String) (t : JTree) (k : Option String) (x0 : String)
    (s : Unit) :
    ("" ∉ leafStrings t → "" ∉ leafStrings (translationWalk tr ex inc t)) ∧
    (excludedKey ex inc k = false → List.lookup x0 tr = some "" →
      ((translationVisitor tr ex inc).visitStr k x0 s).1 = some x0) := by
  constructor
  · intro h hmem
    rcases transLeafDispatch tr ex inc none t () "" hmem with h2 | h2
    · exact h h2
    · exact h2 rfl
  · intro hexk hl
    simp [translationVisitor_visitStr, hexk, hl]

/-- C10 witness: a tree without empty leaves stays free of empty leaves
under a table holding an empty translation. -/
theorem empty_translation_amended_witness :
    "" ∉ leafStrings (translationWalk [("b", "")] [] [] (JTree.list [JTree.str "b"])) :=
  (empty_translation_amended [("b", "")] [] [] (JTree.list [JTree.str "b"])
    none "" ()).1 (by decide)
